import Mathlib

/-!
Verification of the CarbonWise insights core.

This file is a shallow embedding, in Lean 4, of the JavaScript insights
subsystem of the CarbonWise repository:

* `src/routes/activities.js`   — emission-factor tables and the emission
  computation performed on activity creation (POST) and update (PUT);
* `src/utils/insights-engine.js` — feature extraction (`analyzeUserData`),
  the rule engine (`generateInsights`), trend detection (`identifyTrends`),
  the summary generator (`generateAISummary`), the AI wrapper
  (`generateAIInsights`) and the orchestrator (`getInsights`);
* `src/utils/ollama.js`        — the reply-parsing part of
  `generateCarbonInsights`;
* `src/routes/insights.js`     — the category breakdown of
  `getEnhancedStats`.

Modelling conventions:

* JavaScript numbers are modelled as `ℚ` (the code performs only ordinary
  field arithmetic on finite values; NaN/Infinity never arise on the
  modelled paths because every factor table entry is finite).
* Calendar dates (ISO `YYYY-MM-DD` strings, compared lexicographically in
  the code) are modelled as day numbers in `ℤ`; `today` is an explicit
  parameter.  SQL date-window predicates become comparisons on these day
  numbers.
* Database queries are modelled by passing the relevant table contents
  (the user's rows) as an explicit list argument and performing the
  query's filter/aggregate on it.
* `Math.round x` is `⌊x + 1/2⌋` (JavaScript rounds half toward +∞).
* The JavaScript `||`-default on numbers (`x || d`) is `if x = 0 then d
  else x`; on possibly-absent strings it maps the empty string and
  absence to the default.
* Thrown JavaScript exceptions are modelled with `Except Unit`;
  `try/catch` becomes a `match` on the `Except` value.
* `JSON.parse` is a host builtin, not repository code; it is modelled as
  an abstract parameter `String → Option β` (`none` = parse throws).
* Free-text keyword scanning (`String.prototype.includes` after
  `toLowerCase`) is modelled by an executable ASCII lowercasing and
  substring containment check (all scanned keywords are ASCII).
* `Array.prototype.sort` (stable in modern engines) is modelled by an
  executable insertion sort; the verified claims depend on the sorted
  output only up to permutation.
-/
/-- Computes JavaScript `Math.round`: round half toward positive infinity. -/
def jsRound (q : ℚ) : ℤ := ⌊q + 1/2⌋

/-- Computes `Math.round(q * 10) / 10`, the one-decimal rounding applied to
`potentialSavings` in `generateInsights`. -/
def round1 (q : ℚ) : ℚ := (jsRound (q * 10) : ℚ) / 10

/-- Computes the JavaScript numeric default `q || d` (`0` is falsy). -/
def jsNumOr (q d : ℚ) : ℚ := if q = 0 then d else q

/-- Computes the JavaScript default `o || d` for an optional factor-table
lookup result, as used in `value * (TABLE[key] || default)`: an absent key
or a zero (falsy) factor yields the default. -/
def jsFactorOr (o : Option ℚ) (d : ℚ) : ℚ :=
  match o with
  | some f => if f = 0 then d else f
  | none => d

/-- Computes ASCII lowercasing of one character (model of the effect of
`String.prototype.toLowerCase` on the ASCII strings scanned by the code). -/
def lowerChar (c : Char) : Char :=
  if 65 ≤ c.toNat ∧ c.toNat ≤ 90 then Char.ofNat (c.toNat + 32) else c

/-- Computes `s.toLowerCase()` for ASCII strings. -/
def jsToLower (s : String) : String := String.mk (s.data.map lowerChar)

/-- Decides whether the first list is an initial segment of the second. -/
def leadsWith : List Char → List Char → Bool
  | [], _ => true
  | _ :: _, [] => false
  | a :: as, b :: bs => a == b && leadsWith as bs

/-- Decides whether `needle` occurs contiguously inside `hay`. -/
def hasSub (needle : List Char) : List Char → Bool
  | [] => needle.isEmpty
  | c :: t => leadsWith needle (c :: t) || hasSub needle t

/-- Computes `s.includes(sub)` (JavaScript substring containment). -/
def jsIncludes (s sub : String) : Bool := hasSub sub.data s.data

/-- Inserts an element into a list in front of the first position where the
boolean order accepts it (step of the stable insertion sort). -/
def insertLe {α : Type} (le : α → α → Bool) (x : α) : List α → List α
  | [] => [x]
  | y :: ys => if le x y then x :: y :: ys else y :: insertLe le x ys

/-- Computes a stable insertion sort; models `Array.prototype.sort`. -/
def sortLe {α : Type} (le : α → α → Bool) (l : List α) : List α :=
  l.foldr (insertLe le) []

/-- Adds a value to an insertion-ordered set, modelling `Set.prototype.add`
followed by `Array.from`. -/
def addToSet (acc : List String) (c : String) : List String :=
  if c ∈ acc then acc else acc ++ [c]

/-! ## Emission factors and the activity emission computation

Embedded from `src/routes/activities.js`: the `EMISSION_FACTORS` constant
and the emission calculations of the POST `/` (create) and PUT `/:id`
(update) handlers. -/
/-- Embeds `EMISSION_FACTORS.transport.car` (kg CO2 per km by fuel type). -/
def transportCarFactors : List (String × ℚ) :=
  [("petrol", 21/100), ("diesel", 18/100), ("hybrid", 12/100), ("electric", 5/100)]

/-- Embeds the scalar entries of `EMISSION_FACTORS.transport` (every key
except the nested `car` object). -/
def transportFactors : List (String × ℚ) :=
  [("bus", 89/1000), ("train", 41/1000), ("plane", 255/1000),
   ("bike", 0), ("walk", 0), ("metro", 35/1000), ("carpool", 7/100)]

/-- Embeds `EMISSION_FACTORS.electricity`. -/
def electricityFactors : List (String × ℚ) :=
  [("mixed", 1/2), ("coal", 9/10), ("natural-gas", 2/5), ("nuclear", 1/50),
   ("renewable", 1/20)]

/-- Embeds `EMISSION_FACTORS.heating`. -/
def heatingFactors : List (String × ℚ) :=
  [("natural-gas", 2), ("oil", 5/2), ("electric", 3/2), ("wood", 3/10),
   ("heat-pump", 1/2)]

/-- Embeds `EMISSION_FACTORS.diet`. -/
def dietFactors : List (String × ℚ) :=
  [("meat-heavy", 36/5), ("average", 28/5), ("low-meat", 21/5),
   ("vegetarian", 19/5), ("vegan", 29/10)]

/-- Computes `EMISSION_FACTORS.transport.car[fuelType] ||
EMISSION_FACTORS.transport.car.petrol` (the `||` fallback is truthiness
based; no car factor is zero, and an absent `fuelType` yields petrol). -/
def carFactor (fuelType : Option String) : ℚ :=
  match fuelType with
  | some f => jsFactorOr (transportCarFactors.lookup f) (21/100)
  | none => 21/100

/-- Embeds the `case 'transport'` emission computation of the POST `/`
(create) handler: `calcType === 'car'` uses the fuel table; otherwise the
code checks `calcType in EMISSION_FACTORS.transport && typeof ... ===
'number'` — a key-existence check, so a defined factor of `0` (bike, walk)
is used as-is — and falls back to the petrol-car default `0.21`. -/
def postTransportEmissions (calcType : String) (fuelType : Option String) (value : ℚ) : ℚ :=
  if calcType = "car" then value * carFactor fuelType
  else
    match transportFactors.lookup calcType with
    | some f => value * f
    | none => value * (21/100)

/-- Embeds the `case 'transport'` emission recalculation of the PUT `/:id`
(update) handler: `subType === 'car'` uses the fuel table; otherwise the
code checks `EMISSION_FACTORS.transport[subType] && typeof ... ===
'number'` — a truthiness check, so a defined factor of `0` is rejected and
falls through to the petrol-car default `0.21`. -/
def putTransportEmissions (subType : Option String) (fuelType : Option String) (val : ℚ) : ℚ :=
  if subType = some "car" then val * carFactor fuelType
  else
    match subType with
    | some st =>
      match transportFactors.lookup st with
      | some f => if f = 0 then val * (21/100) else val * f
      | none => val * (21/100)
    | none => val * (21/100)

/-- Embeds the full `switch (category)` emission computation of the POST
`/` (create) handler. -/
def postEmissions (category calcType : String) (fuelType : Option String) (value : ℚ) : ℚ :=
  if category = "transport" then postTransportEmissions calcType fuelType value
  else if category = "electricity" ∨ category = "energy" then
    value * jsFactorOr (electricityFactors.lookup calcType) (1/2)
  else if category = "heating" then
    value * jsFactorOr (heatingFactors.lookup calcType) 2
  else if category = "diet" ∨ category = "food" then
    value * jsFactorOr (dietFactors.lookup calcType) (9/5)
  else if category = "waste" then
    value * (1/2)
  else value * (1/2)

/-- Embeds the `switch (cat)` emission recalculation of the PUT `/:id`
(update) handler (only `transport` and `electricity` have cases; everything
else takes the `default` branch `val * 0.5`). -/
def putEmissions (cat : String) (subType : Option String) (fuelType : Option String) (val : ℚ) : ℚ :=
  if cat = "transport" then putTransportEmissions subType fuelType val
  else if cat = "electricity" then
    val * jsFactorOr (subType.bind (electricityFactors.lookup ·)) (1/2)
  else val * (1/2)

/-! ## Data model

The `activities` table rows consumed by the insights engine, and the
`calculator_profiles` row. -/
/-- Embeds one row of the `activities` table (the fields read by the
insights engine); `date` is a day number, `emissions` and `value` are the
stored numbers. -/
structure Activity where
  category : String
  description : String
  value : ℚ
  emissions : ℚ
  date : ℤ
deriving DecidableEq

/-- Embeds the `calculator_profiles` row fields read by `analyzeUserData`
(integer flags become `Bool`). -/
structure Profile where
  energy_source : String
  diet_type : String
  local_food : Bool
  low_food_waste : Bool
  compost : Bool
  recycle_paper : Bool
  recycle_plastic : Bool
  recycle_glass : Bool
  recycle_metal : Bool
  single_use : String
deriving DecidableEq

/-- Embeds the feature-vector object `data` built by `analyzeUserData`. -/
structure UserData where
  categoriesWithData : List String
  activityCount : ℕ
  carTrips : ℕ
  publicTransitTrips : ℕ
  shortCarTrips : ℕ
  soloCarTrips : ℕ
  carEmissions : ℚ
  flightEmissions : ℚ
  transportEmissions : ℚ
  hasTransportData : Bool
  electricityEmissions : ℚ
  electricityUsage : ℚ
  energySource : Option String
  hasElectricityData : Bool
  heatingEmissions : ℚ
  hasHeatingData : Bool
  dietEmissions : ℚ
  dietType : Option String
  localFood : Bool
  lowFoodWaste : Bool
  hasDietData : Bool
  wasteEmissions : ℚ
  composts : Bool
  recyclingScore : ℕ
  singleUseLevel : String
  hasWasteData : Bool
  totalEmissions : ℚ
  hasAnyData : Bool
deriving DecidableEq

/-- Sums the `emissions` field, as in `reduce((sum, a) => sum + a.emissions, 0)`. -/
def sumEmissions (l : List Activity) : ℚ := l.foldl (fun s a => s + a.emissions) 0

/-- Sums the `value` field, as in `reduce((sum, a) => sum + a.value, 0)`. -/
def sumValues (l : List Activity) : ℚ := l.foldl (fun s a => s + a.value) 0

/-- Embeds the `normalizeCategory` helper of `analyzeUserData` (and of
`getEnhancedStats`): lowercase, merge `energy` into `electricity` and
`food` into `diet`. -/
def normalizeCategory (cat : String) : String :=
  let lower := jsToLower cat
  if lower = "energy" ∨ lower = "electricity" then "electricity"
  else if lower = "food" ∨ lower = "diet" then "diet"
  else lower

/-- Decides the car-keyword scan used for `carTrips`:
`description.toLowerCase()` contains `car` or `drove`. -/
def isCarActivity (a : Activity) : Bool :=
  jsIncludes (jsToLower a.description) "car" || jsIncludes (jsToLower a.description) "drove"

/-- Decides the transit-keyword scan used for `publicTransitTrips`. -/
def isTransitActivity (a : Activity) : Bool :=
  jsIncludes (jsToLower a.description) "bus" || jsIncludes (jsToLower a.description) "train"
    || jsIncludes (jsToLower a.description) "metro"

/-- Decides the flight-keyword scan used for `flightEmissions`. -/
def isFlightActivity (a : Activity) : Bool :=
  jsIncludes (jsToLower a.description) "flight" || jsIncludes (jsToLower a.description) "plane"

/-- Computes `profile?.field || null` for a string column (an absent
profile, or an empty string, yields `null`). -/
def profStrOrNull (profile : Option Profile) (f : Profile → String) : Option String :=
  match profile with
  | some p => if f p = "" then none else some (f p)
  | none => none

/-- Computes `profile?.field || false` for a flag column. -/
def profBoolOr (profile : Option Profile) (f : Profile → Bool) : Bool :=
  match profile with
  | some p => f p
  | none => false

/-- Embeds `analyzeUserData` of `src/utils/insights-engine.js`: the SQL
query keeps activities with `date >= today − 30`; every derived field is
computed exactly as in the source.  The database lookups are modelled by
the explicit `allActivities` and `profile` arguments. -/
def analyzeUserData (allActivities : List Activity) (profile : Option Profile) (today : ℤ) :
    UserData :=
  let activities := allActivities.filter (fun a => decide (today - 30 ≤ a.date))
  let transportActivities := activities.filter (fun a => a.category == "transport")
  let electricityActivities :=
    activities.filter (fun a => a.category == "electricity" || a.category == "energy")
  let heatingActivities := activities.filter (fun a => a.category == "heating")
  let dietActivities :=
    activities.filter (fun a => a.category == "diet" || a.category == "food")
  let wasteActivities := activities.filter (fun a => a.category == "waste")
  let carTrips := (transportActivities.filter isCarActivity).length
  { categoriesWithData :=
      (activities.map (fun a => normalizeCategory a.category)).foldl addToSet []
    activityCount := activities.length
    carTrips := carTrips
    publicTransitTrips := (transportActivities.filter isTransitActivity).length
    shortCarTrips :=
      (transportActivities.filter (fun a => isCarActivity a && decide (a.value < 5))).length
    soloCarTrips := carTrips
    carEmissions := sumEmissions (transportActivities.filter isCarActivity)
    flightEmissions := sumEmissions (transportActivities.filter isFlightActivity)
    transportEmissions := sumEmissions transportActivities
    hasTransportData := decide (0 < transportActivities.length)
    electricityEmissions := sumEmissions electricityActivities
    electricityUsage := sumValues electricityActivities
    energySource := profStrOrNull profile (·.energy_source)
    hasElectricityData := decide (0 < electricityActivities.length)
    heatingEmissions := sumEmissions heatingActivities
    hasHeatingData := decide (0 < heatingActivities.length)
    dietEmissions := sumEmissions dietActivities
    dietType := profStrOrNull profile (·.diet_type)
    localFood := profBoolOr profile (·.local_food)
    lowFoodWaste := profBoolOr profile (·.low_food_waste)
    hasDietData := decide (0 < dietActivities.length)
    wasteEmissions := sumEmissions wasteActivities
    composts := profBoolOr profile (·.compost)
    recyclingScore :=
      (if profBoolOr profile (·.recycle_paper) then 1 else 0)
        + (if profBoolOr profile (·.recycle_plastic) then 1 else 0)
        + (if profBoolOr profile (·.recycle_glass) then 1 else 0)
        + (if profBoolOr profile (·.recycle_metal) then 1 else 0)
    singleUseLevel :=
      match profile with
      | some p => if p.single_use = "" then "medium" else p.single_use
      | none => "medium"
    hasWasteData := decide (0 < wasteActivities.length)
    totalEmissions := sumEmissions activities
    hasAnyData := decide (0 < activities.length) }

/-! ## Rule-based recommendation engine

Embedded from `INSIGHT_TEMPLATES` and `generateInsights` of
`src/utils/insights-engine.js`.  Condition predicates and savings
estimators are JavaScript functions that may throw, so they are modelled
in the `Except Unit` monad; every template shipped with the code is total
and returns `.ok`. -/
/-- Embeds one `INSIGHT_TEMPLATES` entry. -/
structure Rule where
  id : String
  title : String
  description : String
  condition : UserData → Except Unit Bool
  calculateSavings : UserData → Except Unit ℚ
  priority : ℕ
  category : String

/-- Embeds one element of the `insights` array pushed by
`generateInsights`. -/
structure Insight where
  id : String
  title : String
  description : String
  category : String
  potentialSavings : ℚ
  priority : ℕ
deriving DecidableEq

/-- Embeds `INSIGHT_TEMPLATES.transport` (conditions and savings verbatim
from the source). -/
def transportTemplates : List Rule :=
  [{ id := "switch-to-public-transit"
     title := "Switch to Public Transit"
     description := "Your car usage accounts for a significant portion of emissions. Using public transit just 2 days a week could reduce your transport footprint by 40%."
     condition := fun d => .ok (decide (5 < d.carTrips) && decide (d.publicTransitTrips < 2))
     calculateSavings := fun d => .ok (d.carEmissions * (4/10))
     priority := 9
     category := "transport" },
   { id := "try-cycling"
     title := "Try Active Commuting"
     description := "Short trips under 5km are perfect for cycling. You could save emissions and improve your health!"
     condition := fun d => .ok (decide (3 < d.shortCarTrips))
     calculateSavings := fun d => .ok ((d.shortCarTrips : ℚ) * (5/2))
     priority := 8
     category := "transport" },
   { id := "carpooling"
     title := "Consider Carpooling"
     description := "Sharing rides with colleagues or neighbors could cut your transport emissions in half."
     condition := fun d => .ok (decide (8 < d.soloCarTrips))
     calculateSavings := fun d => .ok (d.carEmissions * (3/10))
     priority := 7
     category := "transport" },
   { id := "reduce-flights"
     title := "Reduce Air Travel"
     description := "A single flight can emit more CO2 than months of driving. Consider video calls for business or trains for shorter trips."
     condition := fun d => .ok (decide (100 < d.flightEmissions))
     calculateSavings := fun d => .ok (d.flightEmissions * (1/2))
     priority := 10
     category := "transport" }]

/-- Embeds `INSIGHT_TEMPLATES.electricity`. -/
def electricityTemplates : List Rule :=
  [{ id := "switch-renewable"
     title := "Go Renewable Now"
     description := "Switch to a green energy provider - cuts your electricity emissions by 85% instantly."
     condition := fun d =>
       .ok (decide (d.energySource ≠ some "renewable") && decide (20 < d.electricityEmissions))
     calculateSavings := fun d => .ok (d.electricityEmissions * (85/100))
     priority := 9
     category := "electricity" },
   { id := "reduce-standby"
     title := "Kill Standby Power"
     description := "Devices on standby eat 10% of your electricity. Use power strips to cut them dead."
     condition := fun d => .ok (decide (300 < d.electricityUsage))
     calculateSavings := fun d => .ok (d.electricityEmissions * (1/10))
     priority := 6
     category := "electricity" },
   { id := "led-lighting"
     title := "Switch to LEDs"
     description := "LED bulbs use 75% less power. Easy swap, big impact."
     condition := fun d => .ok (decide (250 < d.electricityUsage))
     calculateSavings := fun d => .ok (d.electricityEmissions * (5/100))
     priority := 5
     category := "electricity" },
   { id := "smart-thermostat"
     title := "Get a Smart Thermostat"
     description := "Auto-adjust heating = 10-15% energy savings. Set it and forget it."
     condition := fun d => .ok (decide (30 < d.heatingEmissions))
     calculateSavings := fun d => .ok (d.heatingEmissions * (12/100))
     priority := 7
     category := "electricity" }]

/-- Embeds `INSIGHT_TEMPLATES.diet`. -/
def dietTemplates : List Rule :=
  [{ id := "meatless-days"
     title := "Try Meatless Days"
     description := "Reducing meat consumption by just one day per week can significantly lower your dietary carbon footprint."
     condition := fun d =>
       .ok (decide (d.dietType = some "meat-heavy") || decide (d.dietType = some "average"))
     calculateSavings := fun d => .ok (jsNumOr d.dietEmissions 40 * (15/100))
     priority := 8
     category := "diet" },
   { id := "local-seasonal"
     title := "Choose Local & Seasonal"
     description := "Locally sourced, seasonal produce requires less transportation and storage, reducing emissions by 10-15%."
     condition := fun d => .ok (!d.localFood)
     calculateSavings := fun d => .ok (jsNumOr d.dietEmissions 30 * (12/100))
     priority := 6
     category := "diet" },
   { id := "reduce-food-waste"
     title := "Reduce Food Waste"
     description := "About 30% of food is wasted. Planning meals and using leftovers can cut diet emissions significantly."
     condition := fun d => .ok (!d.lowFoodWaste)
     calculateSavings := fun d => .ok (jsNumOr d.dietEmissions 30 * (2/10))
     priority := 7
     category := "diet" },
   { id := "plant-protein"
     title := "Explore Plant Proteins"
     description := "Beans, lentils, and tofu have 10-50x lower emissions than beef. Try swapping just a few meals."
     condition := fun d =>
       .ok (decide (d.dietType ≠ some "vegetarian") && decide (d.dietType ≠ some "vegan"))
     calculateSavings := fun d => .ok (jsNumOr d.dietEmissions 35 * (2/10))
     priority := 7
     category := "diet" }]

/-- Embeds `INSIGHT_TEMPLATES.waste`. -/
def wasteTemplates : List Rule :=
  [{ id := "start-composting"
     title := "Start Composting"
     description := "Composting food waste prevents methane emissions from landfills and creates nutrient-rich soil."
     condition := fun d => .ok (!d.composts && decide (5 < d.wasteEmissions))
     calculateSavings := fun d => .ok (jsNumOr d.wasteEmissions 10 * (3/10))
     priority := 7
     category := "waste" },
   { id := "improve-recycling"
     title := "Improve Recycling Habits"
     description := "Recycling just one more material type (paper, plastic, glass, or metal) can reduce waste emissions by 10%."
     condition := fun d => .ok (decide (d.recyclingScore < 4))
     calculateSavings := fun d => .ok (jsNumOr d.wasteEmissions 8 * (1/10))
     priority := 6
     category := "waste" },
   { id := "reduce-single-use"
     title := "Reduce Single-Use Items"
     description := "Switching to reusable bags, bottles, and containers can eliminate significant waste and emissions."
     condition := fun d =>
       .ok (decide (d.singleUseLevel = "high") || decide (d.singleUseLevel = "medium"))
     calculateSavings := fun d => .ok (jsNumOr d.wasteEmissions 8 * (15/100))
     priority := 6
     category := "waste" }]

/-- Embeds the whole `INSIGHT_TEMPLATES` object; `Object.keys` iterates in
declaration order. -/
def templateGroups : List (String × List Rule) :=
  [("transport", transportTemplates), ("electricity", electricityTemplates),
   ("diet", dietTemplates), ("waste", wasteTemplates)]

/-- Looks up a category's template list (empty for unknown categories). -/
def templatesFor (c : String) : List Rule :=
  if c = "transport" then transportTemplates
  else if c = "electricity" then electricityTemplates
  else if c = "diet" then dietTemplates
  else if c = "waste" then wasteTemplates
  else []

/-- Embeds the `categoryDataMap` lookup of `generateInsights`: eligibility
of a template category given the feature vector (an unknown key is
`undefined`, hence falsy). -/
def categoryDataMap (u : UserData) (c : String) : Bool :=
  if c = "transport" then u.hasTransportData
  else if c = "electricity" then u.hasElectricityData || u.hasHeatingData
  else if c = "diet" then u.hasDietData
  else if c = "waste" then u.hasWasteData
  else false

/-- Builds the insight record pushed by `generateInsights` for a selected
template whose savings evaluated to `s`. -/
def mkInsightRec (t : Rule) (s : ℚ) : Insight :=
  { id := t.id, title := t.title, description := t.description,
    category := t.category, potentialSavings := round1 s, priority := t.priority }

/-- Computes the savings value of a template, with `0` standing for the
(never-selected) thrown case. -/
def savingsOf (t : Rule) (u : UserData) : ℚ :=
  match t.calculateSavings u with
  | .ok s => s
  | .error _ => 0

/-- Embeds one iteration of the inner template loop of `generateInsights`:
once an insight is recorded the loop breaks (`some` absorbs); otherwise the
condition runs inside `try`, then the savings, and a positive savings
records the insight.  A thrown condition or savings (`.error`) is caught
and skipped. -/
def categoryStep (u : UserData) (acc : Option Insight) (t : Rule) : Option Insight :=
  match acc with
  | some i => some i
  | none =>
    match t.condition u with
    | .ok true =>
      match t.calculateSavings u with
      | .ok s => if 0 < s then some (mkInsightRec t s) else none
      | .error _ => none
    | .ok false => none
    | .error _ => none

/-- Runs the inner template loop of `generateInsights` over one category's
template list. -/
def categoryPass (rules : List Rule) (u : UserData) : Option Insight :=
  rules.foldl (categoryStep u) none

/-- Decides whether a template is the one `generateInsights` selects: its
condition returns `true` and its savings estimate is positive (neither
throwing). -/
def selectedB (t : Rule) (u : UserData) : Bool :=
  match t.condition u, t.calculateSavings u with
  | .ok true, .ok s => decide (0 < s)
  | _, _ => false

/-- Computes one category group's contribution to the `insights` array of
`generateInsights`: nothing if the category has no logged data, else the
at-most-one insight selected by the template loop. -/
def groupOut (u : UserData) (g : String × List Rule) : List Insight :=
  if categoryDataMap u g.1 then (categoryPass g.2 u).toList else []

/-- Runs the outer category loop of `generateInsights` over a template
table. -/
def runGroups (groups : List (String × List Rule)) (u : UserData) : List Insight :=
  (groups.map (groupOut u)).flatten

/-- Computes the unsorted `insights` array of `generateInsights` on the
non-empty path. -/
def rawInsights (u : UserData) : List Insight := runGroups templateGroups u

/-- Embeds the fixed getting-started insights returned by
`generateInsights` for a user with no data. -/
def gettingStarted : List Insight :=
  [{ id := "get-started-transport"
     title := "Start Tracking Transport"
     description := "Log your commute, car trips, and transit to see your transport emissions."
     category := "transport", potentialSavings := 0, priority := 10 },
   { id := "get-started-electricity"
     title := "Track Your Electricity"
     description := "Add your electricity usage to see how home energy impacts your footprint."
     category := "electricity", potentialSavings := 0, priority := 9 },
   { id := "get-started-diet"
     title := "Log Your Meals"
     description := "Track dietary choices to see how food impacts your carbon footprint."
     category := "diet", potentialSavings := 0, priority := 8 }]

/-- Decides the final comparator of `generateInsights` (`sort` by
descending priority, ties by descending potential savings). -/
def insightLe (a b : Insight) : Bool :=
  if a.priority ≠ b.priority then decide (b.priority ≤ a.priority)
  else decide (b.potentialSavings ≤ a.potentialSavings)

/-- Runs `generateInsights` over an already-computed feature vector (the
body of the source function after the `analyzeUserData` call), generic in
the template table so that rule-fault isolation can be stated. -/
def generateInsightsWith (groups : List (String × List Rule)) (u : UserData) : List Insight :=
  if u.hasAnyData then sortLe insightLe (runGroups groups u) else gettingStarted

/-- Runs `generateInsights` over an already-computed feature vector with
the shipped `INSIGHT_TEMPLATES`. -/
def generateInsightsFromData (u : UserData) : List Insight :=
  generateInsightsWith templateGroups u

/-- Embeds `generateInsights` of `src/utils/insights-engine.js`. -/
def generateInsights (allActivities : List Activity) (profile : Option Profile) (today : ℤ) :
    List Insight :=
  generateInsightsFromData (analyzeUserData allActivities profile today)

/-! ## Trend detection

Embedded from `identifyTrends` of `src/utils/insights-engine.js`.  The two
SQL aggregates become sums over the explicit activity list; the
human-readable `message` string is presentation-only and is not modelled. -/
/-- Embeds one trend record pushed by `identifyTrends` (without the
presentation-only `message` string; `thisWeek`/`lastWeek` are kept as the
raw totals the code formats with `toFixed(1)`). -/
structure TrendRecord where
  category : String
  changePercent : ℤ
  trend : String
  thisWeek : ℚ
  lastWeek : ℚ
deriving DecidableEq

/-- Computes the `thisWeek` aggregate of `identifyTrends`: sum of emissions
in the user's rows of one category with `date ≥ today − 7`. -/
def thisWeekSum (acts : List Activity) (today : ℤ) (cat : String) : ℚ :=
  sumEmissions (acts.filter (fun a => a.category == cat && decide (today - 7 ≤ a.date)))

/-- Computes the `lastWeek` aggregate of `identifyTrends`: sum of emissions
in one category with `today − 14 ≤ date < today − 7`. -/
def lastWeekSum (acts : List Activity) (today : ℤ) (cat : String) : ℚ :=
  sumEmissions (acts.filter
    (fun a => a.category == cat && decide (today - 14 ≤ a.date) && decide (a.date < today - 7)))

/-- Embeds the five-element `categories` array of `identifyTrends`. -/
def trendCategories : List String :=
  ["transport", "electricity", "heating", "diet", "waste"]

/-- Embeds one iteration of the category loop of `identifyTrends`: `none`
when the category is skipped (zero baseline or |change| < 5). -/
def trendFor (acts : List Activity) (today : ℤ) (cat : String) : Option TrendRecord :=
  let thisW := thisWeekSum acts today cat
  let lastW := lastWeekSum acts today cat
  if 0 < lastW then
    let changePercent := jsRound ((thisW - lastW) / lastW * 100)
    if 5 ≤ |changePercent| then
      some { category := cat
             changePercent := changePercent
             trend :=
               if changePercent ≤ -10 then "positive"
               else if 10 ≤ changePercent then "negative"
               else "neutral"
             thisWeek := thisW
             lastWeek := lastW }
    else none
  else none

/-- Decides the final comparator of `identifyTrends` (`sort` by descending
absolute percent change). -/
def trendLe (a b : TrendRecord) : Bool := decide (|b.changePercent| ≤ |a.changePercent|)

/-- Embeds `identifyTrends` of `src/utils/insights-engine.js`. -/
def identifyTrends (acts : List Activity) (today : ℤ) : List TrendRecord :=
  sortLe trendLe (trendCategories.filterMap (trendFor acts today))

/-! ## Summary generator

Embedded from `generateAISummary` of `src/utils/insights-engine.js`.
JavaScript number-to-string formatting (`toFixed`) is modelled by
`toString` on `ℚ`; no verified claim inspects a formatted digit string. -/
/-- Embeds the `topCategory` object of `generateAISummary`. -/
structure TopCategory where
  name : String
  emissions : ℚ
  percentage : ℤ
deriving DecidableEq

/-- Embeds the return value of `generateAISummary`
(`potentialSavings` is kept as the number the code formats with
`toFixed(0)`). -/
structure SummaryResult where
  summary : String
  topCategory : Option TopCategory
  potentialSavings : ℚ
  insightCount : ℕ
deriving DecidableEq

/-- Embeds the fixed no-data summary text of `generateAISummary`. -/
def welcomeSummary : String :=
  "Welcome to CarbonWise! Start logging your daily activities to get personalized insights about your carbon footprint. We\x27ll analyze your transport, energy, diet, and waste patterns to help you make eco-friendly choices."

/-- Stands in for JavaScript number formatting inside narrative strings
(the formatted digits are never inspected by a verified claim). -/
def numStr (q : ℚ) : String := toString q

/-- Decides the category comparator of `generateAISummary` (`sort` by
descending emissions). -/
def catLe (a b : String × ℚ) : Bool := decide (b.2 ≤ a.2)

/-- Embeds `generateAISummary` of `src/utils/insights-engine.js`. -/
def generateAISummary (allActivities : List Activity) (profile : Option Profile) (today : ℤ) :
    SummaryResult :=
  let userData := analyzeUserData allActivities profile today
  let insights := generateInsightsFromData userData
  if !userData.hasAnyData then
    { summary := welcomeSummary, topCategory := none, potentialSavings := 0, insightCount := 0 }
  else
    let categories : List (String × ℚ) :=
      (([("transport", userData.transportEmissions, userData.hasTransportData),
         ("electricity", userData.electricityEmissions, userData.hasElectricityData),
         ("heating", userData.heatingEmissions, userData.hasHeatingData),
         ("diet", userData.dietEmissions, userData.hasDietData),
         ("waste", userData.wasteEmissions, userData.hasWasteData)]
          : List (String × ℚ × Bool)).filter (fun c => c.2.2)).map (fun c => (c.1, c.2.1))
    match sortLe catLe categories with
    | [] =>
      { summary := "You\x27ve started tracking! Keep logging activities to build a complete picture of your carbon footprint."
        topCategory := none, potentialSavings := 0, insightCount := insights.length }
    | topCategory :: rest =>
      let totalEmissions := ((topCategory :: rest).map (·.2)).foldl (· + ·) 0
      let topPercentage :=
        if 0 < totalEmissions then jsRound (topCategory.2 / totalEmissions * 100) else 0
      let totalPotentialSavings := (insights.map (·.potentialSavings)).foldl (· + ·) 0
      let base :=
        "Based on " ++ toString userData.activityCount
          ++ " logged activities, your highest emission source is **" ++ topCategory.1
          ++ "** at " ++ numStr topCategory.2 ++ " kg CO₂ (" ++ toString topPercentage
          ++ "% of tracked emissions). "
      let tail :=
        if 0 < insights.length ∧ 0 < totalPotentialSavings then
          "By following our recommendations, you could save up to "
            ++ numStr totalPotentialSavings ++ " kg CO₂ per month."
        else "Keep tracking to unlock personalized reduction tips!"
      { summary := base ++ tail
        topCategory := some { name := topCategory.1, emissions := topCategory.2,
                              percentage := topPercentage }
        potentialSavings := totalPotentialSavings
        insightCount := insights.length }

/-- Embeds `getEncouragement` of `src/utils/insights-engine.js`. -/
def getEncouragement (trends : List TrendRecord) : String :=
  let positiveTrends := trends.filter (fun t => t.trend == "positive")
  if 2 ≤ positiveTrends.length then
    "Amazing progress! You\x27re making real changes across multiple categories. Keep up the fantastic work! 🌱"
  else if positiveTrends.length = 1 then
    "Great job reducing your "
      ++ (match positiveTrends with | t :: _ => t.category | [] => "")
      ++ " emissions! Small steps lead to big changes. Keep it up! 💪"
  else if trends.any (fun t => t.trend == "neutral") then
    "You\x27re maintaining steady habits. Ready to take the next step? Try one small change this week! 🌿"
  else
    "Every journey starts somewhere. Pick one area to focus on this week, and you\x27ll see progress! 🌍"

/-! ## Enhanced statistics: category breakdown

Embedded from `getEnhancedStats` of `src/routes/insights.js` (the
category-breakdown part referenced by the claims).  `parseFloat(x.toFixed(2))`
is modelled as rounding to two decimals. -/
/-- Computes `parseFloat(q.toFixed(2))`: rounding to two decimal places. -/
def round2 (q : ℚ) : ℚ := (jsRound (q * 100) : ℚ) / 100

/-- Embeds one element of the `breakdown` array of `getEnhancedStats`. -/
structure BreakdownRow where
  category : String
  count : ℕ
  emissions : ℚ
  avgPerActivity : ℚ
  percentage : ℤ
deriving DecidableEq

/-- Computes the `rawBreakdown` query of `getEnhancedStats` (`GROUP BY
category ORDER BY total_emissions DESC` over the last 30 days): one
`(category, count, total)` row per distinct raw category, sorted by
descending total. -/
def rawBreakdown (acts : List Activity) (today : ℤ) : List (String × ℕ × ℚ) :=
  let filtered := acts.filter (fun a => decide (today - 30 ≤ a.date))
  let cats := (filtered.map (·.category)).foldl addToSet []
  sortLe (fun a b => decide (b.2.2 ≤ a.2.2))
    (cats.map (fun c =>
      let group := filtered.filter (fun a => a.category == c)
      (c, group.length, sumEmissions group)))

/-- Embeds one step of the `mergedMap` loop of `getEnhancedStats`: sum a
raw row into the entry of its normalized category, preserving `Map`
insertion order. -/
def mergeRow (acc : List (String × ℕ × ℚ)) (r : String × ℕ × ℚ) : List (String × ℕ × ℚ) :=
  let key := normalizeCategory r.1
  if acc.any (fun e => e.1 == key) then
    acc.map (fun e => if e.1 == key then (e.1, e.2.1 + r.2.1, e.2.2 + r.2.2) else e)
  else acc ++ [(key, r.2.1, r.2.2)]

/-- Embeds the category-breakdown computation of `getEnhancedStats`: raw
per-category rows, synonym merge (`energy` → `electricity`,
`food` → `diet`), sort by descending merged total, then formatting with
per-activity average and percentage share. -/
def enhancedBreakdown (acts : List Activity) (today : ℤ) : List BreakdownRow :=
  let merged := (rawBreakdown acts today).foldl mergeRow []
  let categoryBreakdown := sortLe (fun a b => decide (b.2.2 ≤ a.2.2)) merged
  let totalEmissions := (categoryBreakdown.map (·.2.2)).foldl (· + ·) 0
  categoryBreakdown.map (fun c =>
    { category := c.1
      count := c.2.1
      emissions := round2 c.2.2
      avgPerActivity := round2 (c.2.2 / (c.2.1 : ℚ))
      percentage := if 0 < totalEmissions then jsRound (c.2.2 / totalEmissions * 100) else 0 })

/-! ## AI insight adapter

Embedded from `generateCarbonInsights` of `src/utils/ollama.js` (the
response-handling part: the HTTP transport and prompt construction carry
no verified claim) and `generateAIInsights` of
`src/utils/insights-engine.js`.  `JSON.parse` is a host builtin and is
passed as an abstract `jsonParse` argument; `none` models a parse throw. -/
/-- Embeds one element of the parsed `insights` array (only the `category`
field is inspected by the code; the remaining fields are abstracted as an
opaque payload string). -/
structure AIInsight where
  category : Option String
  rest : String
deriving DecidableEq

/-- Embeds the parsed JSON reply object (only the fields the adapter
touches: the deduplicated `insights` array, absent when the JSON object
lacks one, plus an opaque remainder). -/
structure ParsedReply where
  insights : Option (List AIInsight)
  rest : String
deriving DecidableEq

/-- Computes the `response.match(/\x7b[\s\S]*\x7d/)` extraction of
`generateCarbonInsights`: the substring from the first opening brace to
the last closing brace, when the latter comes after the former. -/
def extractJsonSub (s : String) : Option String :=
  let cs := s.data
  match cs.findIdx? (fun c => c == '{') with
  | none => none
  | some i =>
    match cs.reverse.findIdx? (fun c => c == '}') with
    | none => none
    | some jr =>
      let j := cs.length - 1 - jr
      if i ≤ j then some (String.mk ((cs.drop i).take (j - i + 1))) else none

/-- Embeds the category deduplication of `generateCarbonInsights`: keep
only the first insight of each lowercased category (an absent category is
itself a deduplication key, as `undefined` is in a JavaScript `Set`). -/
def dedupByCategory (insights : List AIInsight) : List AIInsight :=
  (insights.foldl
    (fun (st : List (Option String) × List AIInsight) i =>
      let cat := i.category.map jsToLower
      if cat ∈ st.1 then st else (st.1 ++ [cat], st.2 ++ [i]))
    ([], [])).2

/-- Embeds the two success shapes of `generateCarbonInsights`: a parsed
(and deduplicated) JSON object, or the raw-reply fallback
`{summary: response, topInsight: '', insights: [], encouragement: ''}`. -/
inductive CarbonOutcome where
  | parsed (p : ParsedReply)
  | rawWrapped (summary : String)
deriving DecidableEq

/-- Embeds the response handling of `generateCarbonInsights` in
`src/utils/ollama.js`: extract the brace-delimited substring; if found,
`JSON.parse` it (a throw propagates — the surrounding `catch` logs and
rethrows) and deduplicate `parsed.insights` when present; if no substring
is found, return the raw reply wrapped as the `summary` of a normal result. -/
def generateCarbonInsights (jsonParse : String → Option ParsedReply) (response : String) :
    Except Unit CarbonOutcome :=
  match extractJsonSub response with
  | some m =>
    match jsonParse m with
    | some parsed => .ok (.parsed { parsed with insights := parsed.insights.map dedupByCategory })
    | none => .error ()
  | none => .ok (.rawWrapped response)

/-- Embeds the payload assembled by `generateAIInsights` on success
(`{source: 'ai', model, generatedAt, ...aiInsights}`; the `model` and
`generatedAt` metadata carry no verified claim and are omitted). -/
structure AIPayload where
  source : String
  outcome : CarbonOutcome
deriving DecidableEq

/-- Embeds `generateAIInsights` of `src/utils/insights-engine.js`: `none`
when the service probe fails, or when `generateCarbonInsights` throws (the
`try/catch` returns `null`); otherwise the AI-sourced payload. -/
def generateAIInsights (ollamaAvailable : Bool) (jsonParse : String → Option ParsedReply)
    (response : String) : Option AIPayload :=
  if !ollamaAvailable then none
  else
    match generateCarbonInsights jsonParse response with
    | .ok r => some { source := "ai", outcome := r }
    | .error _ => none

/-! ## Insight orchestrator

Embedded from `getInsights` of `src/utils/insights-engine.js`.  The cached
rows of the `insights` table are passed explicitly; `created_at` is a
wall-clock value in hours; `JSON.parse` of the cached description is the
abstract `parseCache` argument.  The cache write on AI success is a
database effect with no verified claim and is not modelled. -/
/-- Embeds one row of the `insights` cache table (the columns the cache
query reads). -/
structure InsightRow where
  description : String
  priority : ℤ
  isDismissed : Bool
  createdAt : ℚ
deriving DecidableEq

/-- Embeds the cached payload parsed from `cached.description` (only
`source` is inspected; the remainder is opaque). -/
structure CachedData where
  source : String
  body : String
deriving DecidableEq

/-- Embeds the cache query of `getInsights`: rows not dismissed and
younger than 6 hours, ordered by descending priority, `LIMIT 1`. -/
def cacheLookup (rows : List InsightRow) (now : ℚ) : Option InsightRow :=
  (sortLe (fun a b => decide (b.priority ≤ a.priority))
    (rows.filter (fun r => !r.isDismissed && decide (now - 6 < r.createdAt)))).head?

/-- Embeds the cache-inspection step of `getInsights`: a found row with a
non-empty description whose parsed payload has `source === 'ai'` is a hit;
a parse throw or any other shape falls through to regeneration. -/
def checkCache (rows : List InsightRow) (now : ℚ) (parseCache : String → Option CachedData) :
    Option CachedData :=
  match cacheLookup rows now with
  | some c =>
    if c.description ≠ "" then
      match parseCache c.description with
      | some d => if d.source = "ai" then some d else none
      | none => none
    else none
  | none => none

/-- Embeds the three return shapes of `getInsights`: cached payload, fresh
AI payload, or the rule-based fallback payload. -/
inductive InsightsOut where
  | cacheHit (d : CachedData)
  | aiPayload (p : AIPayload)
  | rulesPayload (summary : String) (topInsight : String) (insights : List Insight)
      (trends : List TrendRecord) (encouragement : String)
deriving DecidableEq

/-- Embeds the generation part of `getInsights` (everything after the
cache check): try the AI path, else assemble the rule-based payload. -/
def generatePath (ollamaAvailable : Bool) (jsonParse : String → Option ParsedReply)
    (aiResponse : String) (acts : List Activity) (profile : Option Profile) (today : ℤ) :
    InsightsOut :=
  match generateAIInsights ollamaAvailable jsonParse aiResponse with
  | some p => .aiPayload p
  | none =>
    let ruleBasedInsights := generateInsights acts profile today
    let trends := identifyTrends acts today
    let summary := generateAISummary acts profile today
    .rulesPayload summary.summary
      ((ruleBasedInsights.head?.map (·.description)).getD "")
      (ruleBasedInsights.take 4) trends (getEncouragement trends)

/-- Embeds `getInsights` of `src/utils/insights-engine.js`. -/
def getInsights (rows : List InsightRow) (now : ℚ) (parseCache : String → Option CachedData)
    (ollamaAvailable : Bool) (jsonParse : String → Option ParsedReply) (aiResponse : String)
    (acts : List Activity) (profile : Option Profile) (today : ℤ) (forceRefresh : Bool) :
    InsightsOut :=
  if forceRefresh then generatePath ollamaAvailable jsonParse aiResponse acts profile today
  else
    match checkCache rows now parseCache with
    | some d => .cacheHit d
    | none => generatePath ollamaAvailable jsonParse aiResponse acts profile today

/-! ## Sample feature vectors used by the witnesses -/
/-- Concrete feature vector of a user whose last 30 days hold only car
trips (six of them, 10 kg of car emissions). -/
def carUser : UserData :=
  { categoriesWithData := ["transport"], activityCount := 6, carTrips := 6,
    publicTransitTrips := 0, shortCarTrips := 0, soloCarTrips := 6, carEmissions := 10,
    flightEmissions := 0, transportEmissions := 10, hasTransportData := true,
    electricityEmissions := 0, electricityUsage := 0, energySource := none,
    hasElectricityData := false, heatingEmissions := 0, hasHeatingData := false,
    dietEmissions := 0, dietType := none, localFood := false, lowFoodWaste := false,
    hasDietData := false, wasteEmissions := 0, composts := false, recyclingScore := 4,
    singleUseLevel := "low", hasWasteData := false, totalEmissions := 10, hasAnyData := true }

/-- Concrete feature vector of a user who has logged only heating
activities (50 kg of heating emissions, no electricity rows at all). -/
def heatingUser : UserData :=
  { categoriesWithData := ["heating"], activityCount := 5, carTrips := 0,
    publicTransitTrips := 0, shortCarTrips := 0, soloCarTrips := 0, carEmissions := 0,
    flightEmissions := 0, transportEmissions := 0, hasTransportData := false,
    electricityEmissions := 0, electricityUsage := 0, energySource := none,
    hasElectricityData := false, heatingEmissions := 50, hasHeatingData := true,
    dietEmissions := 0, dietType := none, localFood := false, lowFoodWaste := false,
    hasDietData := false, wasteEmissions := 0, composts := false, recyclingScore := 4,
    singleUseLevel := "low", hasWasteData := false, totalEmissions := 50, hasAnyData := true }

/-- Concrete template whose condition throws on every feature vector. -/
def throwingRule : Rule :=
  { id := "broken-rule", title := "Broken", description := "throws on evaluation",
    condition := fun _ => .error (), calculateSavings := fun _ => .ok 1,
    priority := 9, category := "transport" }

/-- Concrete insight selected for `carUser`: the first transport template,
with savings 10 × 0.4 = 4 (already one-decimal). -/
def transitInsight : Insight :=
  { id := "switch-to-public-transit", title := "Switch to Public Transit",
    description := "Your car usage accounts for a significant portion of emissions. Using public transit just 2 days a week could reduce your transport footprint by 40%.",
    category := "transport", potentialSavings := 4, priority := 9 }

/-- Concrete activity history: 100 kg of transport emissions in the prior
week, 85 kg in the current week. -/
def trendActs : List Activity :=
  [{ category := "transport", description := "weekly driving", value := 0,
     emissions := 100, date := -10 },
   { category := "transport", description := "weekly driving", value := 0,
     emissions := 85, date := -3 }]

/-- Concrete cache row and parse function used by the C6 witness. -/
def cachedRow : InsightRow :=
  { description := "cached-ai-json", priority := 10, isDismissed := false, createdAt := 4 }

/-- Concrete parse function recognizing only the stored description. -/
def cacheParse : String → Option CachedData :=
  fun s => if s = "cached-ai-json" then some { source := "ai", body := "payload" } else none

/-- Concrete parse function yielding a wrong-shape payload (it parses, but
its `source` is not `ai`). -/
def cacheParseRules : String → Option CachedData :=
  fun s => if s = "cached-ai-json" then some { source := "rules", body := "payload" } else none

/-- Concrete service reply containing no JSON object. -/
def noJsonReply : String := "Sorry, I cannot produce structured output right now."

/-- Concrete prose-wrapped reply and its brace-delimited substring. -/
def proseReply : String := "Here is the result: \x7bsummary: 1\x7d hope it helps"

/-- Concrete JSON substring of `proseReply`. -/
def proseJson : String := "\x7bsummary: 1\x7d"

/-- Concrete history logged under the synonym category `energy`: 100 kg in
the prior week, 50 kg in the current week. -/
def energyActs : List Activity :=
  [{ category := "energy", description := "home power", value := 100,
     emissions := 100, date := -10 },
   { category := "energy", description := "home power", value := 50,
     emissions := 50, date := -3 }]

/-- The same history logged under the canonical category `electricity`. -/
def electricityActs : List Activity :=
  [{ category := "electricity", description := "home power", value := 100,
     emissions := 100, date := -10 },
   { category := "electricity", description := "home power", value := 50,
     emissions := 50, date := -3 }]

theorem insertLe_perm {α : Type} (le : α → α → Bool) (x : α) (l : List α) :
    (insertLe le x l).Perm (x :: l) := by
  induction l with
  | nil => simp [insertLe]
  | cons y ys ih =>
    by_cases h : le x y
    · simp [insertLe, h]
    · simp only [insertLe, h, if_neg, Bool.false_eq_true, not_false_iff, ite_false]
      exact (List.Perm.cons y ih).trans (List.Perm.swap x y ys)

theorem sortLe_perm {α : Type} (le : α → α → Bool) (l : List α) :
    (sortLe le l).Perm l := by
  induction l with
  | nil => simp [sortLe]
  | cons y ys ih =>
    simp only [sortLe, List.foldr_cons]
    exact (insertLe_perm le y _).trans (ih.cons y)

/-! ## Structural lemmas about the rule engine -/
theorem categoryStep_some (u : UserData) (i : Insight) (l : List Rule) :
    l.foldl (categoryStep u) (some i) = some i := by
  induction l with
  | nil => rfl
  | cons t ts ih => simpa [categoryStep] using ih

theorem categoryStep_none (u : UserData) (t : Rule) :
    categoryStep u none t =
      if selectedB t u then some (mkInsightRec t (savingsOf t u)) else none := by
  simp only [categoryStep, selectedB, savingsOf]
  cases hc : t.condition u with
  | error e => rfl
  | ok b =>
    cases b with
    | false => rfl
    | true =>
      cases hs : t.calculateSavings u with
      | error e => rfl
      | ok s => by_cases h : 0 < s <;> simp [h]

theorem categoryPass_eq_find (rules : List Rule) (u : UserData) :
    categoryPass rules u =
      (rules.find? (fun t => selectedB t u)).map (fun t => mkInsightRec t (savingsOf t u)) := by
  induction rules with
  | nil => rfl
  | cons t ts ih =>
    simp only [categoryPass, List.foldl_cons, List.find?_cons] at *
    rw [categoryStep_none]
    by_cases h : selectedB t u
    · simp only [h, if_true]
      rw [categoryStep_some]
      simp [h]
    · simp only [h, if_false, Bool.false_eq_true]
      exact ih

theorem categoryPass_category (rules : List Rule) (u : UserData) (c : String)
    (hcat : ∀ t ∈ rules, t.category = c) (i : Insight)
    (hp : categoryPass rules u = some i) : i.category = c := by
  rw [categoryPass_eq_find] at hp
  cases hf : rules.find? (fun t => selectedB t u) with
  | none => rw [hf] at hp; cases hp
  | some t =>
    rw [hf] at hp
    have ht : t ∈ rules := List.mem_of_find?_eq_some hf
    have : mkInsightRec t (savingsOf t u) = i := by simpa using hp
    rw [← this]
    exact hcat t ht

theorem groupOut_length (u : UserData) (g : String × List Rule) :
    (groupOut u g).length ≤ 1 := by
  unfold groupOut
  by_cases h : categoryDataMap u g.1
  · simp only [h, if_true]
    cases categoryPass g.2 u <;> simp
  · simp [h]

theorem perm_le_one {α : Type} {l l' : List α} (h : l.Perm l') (hl : l'.length ≤ 1) :
    l = l' := by
  cases l' with
  | nil => exact h.eq_nil
  | cons a t =>
    cases t with
    | nil => exact List.perm_singleton.mp h
    | cons b t2 => simp at hl

theorem groupOut_filter (u : UserData) (c key : String) (rules : List Rule)
    (hcat : ∀ t ∈ rules, t.category = key) :
    (groupOut u (key, rules)).filter (fun i => i.category == c) =
      if key = c then groupOut u (key, rules) else [] := by
  by_cases hd : categoryDataMap u key
  · cases hp : categoryPass rules u with
    | none => simp [groupOut, hd, hp]
    | some i =>
      have hic : i.category = key := categoryPass_category rules u key hcat i hp
      by_cases hkc : key = c
      · subst hkc
        simp [groupOut, hd, hp, List.filter, hic]
      · simp [groupOut, hd, hp, List.filter, hic, hkc]
  · simp [groupOut, hd]

theorem transportTemplates_category : ∀ t ∈ transportTemplates, t.category = "transport" := by
  intro t ht
  simp only [transportTemplates, List.mem_cons, List.not_mem_nil, or_false] at ht
  rcases ht with rfl | rfl | rfl | rfl <;> rfl

theorem electricityTemplates_category :
    ∀ t ∈ electricityTemplates, t.category = "electricity" := by
  intro t ht
  simp only [electricityTemplates, List.mem_cons, List.not_mem_nil, or_false] at ht
  rcases ht with rfl | rfl | rfl | rfl <;> rfl

theorem dietTemplates_category : ∀ t ∈ dietTemplates, t.category = "diet" := by
  intro t ht
  simp only [dietTemplates, List.mem_cons, List.not_mem_nil, or_false] at ht
  rcases ht with rfl | rfl | rfl | rfl <;> rfl

theorem wasteTemplates_category : ∀ t ∈ wasteTemplates, t.category = "waste" := by
  intro t ht
  simp only [wasteTemplates, List.mem_cons, List.not_mem_nil, or_false] at ht
  rcases ht with rfl | rfl | rfl <;> rfl

theorem rawInsights_filter (u : UserData) (c : String) :
    (rawInsights u).filter (fun i => i.category == c) = groupOut u (c, templatesFor c) := by
  have h1 := groupOut_filter u c "transport" transportTemplates transportTemplates_category
  have h2 := groupOut_filter u c "electricity" electricityTemplates electricityTemplates_category
  have h3 := groupOut_filter u c "diet" dietTemplates dietTemplates_category
  have h4 := groupOut_filter u c "waste" wasteTemplates wasteTemplates_category
  simp only [rawInsights, runGroups, templateGroups, List.map_cons, List.map_nil,
    List.flatten_cons, List.flatten_nil, List.append_nil, List.filter_append, h1, h2, h3, h4]
  by_cases hc1 : c = "transport"
  · subst hc1; simp [templatesFor]
  · by_cases hc2 : c = "electricity"
    · subst hc2; simp [templatesFor]
    · by_cases hc3 : c = "diet"
      · subst hc3; simp [templatesFor]
      · by_cases hc4 : c = "waste"
        · subst hc4; simp [templatesFor]
        · have g1 : ¬("transport" = c) := fun h => hc1 h.symm
          have g2 : ¬("electricity" = c) := fun h => hc2 h.symm
          have g3 : ¬("diet" = c) := fun h => hc3 h.symm
          have g4 : ¬("waste" = c) := fun h => hc4 h.symm
          simp [g1, g2, g3, g4, templatesFor, hc1, hc2, hc3, hc4, groupOut, categoryPass]

theorem generateInsightsFromData_filter (u : UserData) (c : String) (h : u.hasAnyData = true) :
    (generateInsightsFromData u).filter (fun i => i.category == c) =
      groupOut u (c, templatesFor c) := by
  unfold generateInsightsFromData generateInsightsWith
  rw [h]
  simp only [if_true]
  have hperm :=
    List.Perm.filter (fun i => i.category == c) (sortLe_perm insightLe (rawInsights u))
  rw [rawInsights_filter] at hperm
  exact perm_le_one hperm (groupOut_length u (c, templatesFor c))

/-! ## Structural lemmas about trend detection -/
theorem trendFor_eq_if (acts : List Activity) (today : ℤ) (cat : String) :
    trendFor acts today cat =
      if 0 < lastWeekSum acts today cat ∧
          5 ≤ |jsRound ((thisWeekSum acts today cat - lastWeekSum acts today cat)
                / lastWeekSum acts today cat * 100)| then
        some { category := cat
               changePercent := jsRound ((thisWeekSum acts today cat - lastWeekSum acts today cat)
                 / lastWeekSum acts today cat * 100)
               trend :=
                 if jsRound ((thisWeekSum acts today cat - lastWeekSum acts today cat)
                     / lastWeekSum acts today cat * 100) ≤ -10 then "positive"
                 else if 10 ≤ jsRound ((thisWeekSum acts today cat - lastWeekSum acts today cat)
                     / lastWeekSum acts today cat * 100) then "negative"
                 else "neutral"
               thisWeek := thisWeekSum acts today cat
               lastWeek := lastWeekSum acts today cat }
      else none := by
  unfold trendFor
  by_cases h1 : 0 < lastWeekSum acts today cat
  · by_cases h2 : 5 ≤ |jsRound ((thisWeekSum acts today cat - lastWeekSum acts today cat)
        / lastWeekSum acts today cat * 100)|
    · simp [h1, h2]
    · simp [h1, h2]
  · simp [h1]

theorem trendFor_category (acts : List Activity) (today : ℤ) (cat : String) (r : TrendRecord)
    (h : trendFor acts today cat = some r) : r.category = cat := by
  rw [trendFor_eq_if] at h
  by_cases hc : 0 < lastWeekSum acts today cat ∧
      5 ≤ |jsRound ((thisWeekSum acts today cat - lastWeekSum acts today cat)
        / lastWeekSum acts today cat * 100)|
  · rw [if_pos hc] at h
    have := (Option.some.injEq _ _).mp h
    rw [← this]
  · rw [if_neg hc] at h
    cases h

theorem mem_filterMap_trendFor (acts : List Activity) (today : ℤ) (cats : List String)
    (r : TrendRecord) (h : r ∈ cats.filterMap (trendFor acts today)) : r.category ∈ cats := by
  rw [List.mem_filterMap] at h
  obtain ⟨a, ha, hfa⟩ := h
  rw [trendFor_category acts today a r hfa]
  exact ha

theorem filterMap_trendFor_filter (acts : List Activity) (today : ℤ) (cats : List String)
    (cat : String) (hmem : cat ∈ cats) (hnodup : cats.Nodup) :
    (cats.filterMap (trendFor acts today)).filter (fun r => r.category == cat) =
      (trendFor acts today cat).toList := by
  induction cats with
  | nil => cases hmem
  | cons c cs ih =>
    have hnd := List.nodup_cons.mp hnodup
    rcases List.mem_cons.mp hmem with hec | hcs
    · subst hec
      cases hfc : trendFor acts today cat with
      | none =>
        simp only [List.filterMap_cons, hfc, Option.toList_none]
        rw [List.filter_eq_nil_iff.mpr]
        intro r hr
        have := mem_filterMap_trendFor acts today cs r hr
        simp only [beq_iff_eq]
        intro hrc
        rw [hrc] at this
        exact hnd.1 this
      | some rec =>
        have hrc : rec.category = cat := trendFor_category acts today cat rec hfc
        simp only [List.filterMap_cons, hfc, Option.toList_some]
        rw [List.filter_cons_of_pos (by simp [hrc])]
        congr 1
        rw [List.filter_eq_nil_iff.mpr]
        intro r hr
        have := mem_filterMap_trendFor acts today cs r hr
        simp only [beq_iff_eq]
        intro hrc2
        rw [hrc2] at this
        exact hnd.1 this
    · have hne : c ≠ cat := fun h => hnd.1 (h ▸ hcs)
      cases hfc : trendFor acts today c with
      | none =>
        simp only [List.filterMap_cons, hfc]
        exact ih hcs hnd.2
      | some rec =>
        have hrc : rec.category = c := trendFor_category acts today c rec hfc
        simp only [List.filterMap_cons, hfc]
        rw [List.filter_cons_of_neg (by simp [hrc, hne])]
        exact ih hcs hnd.2

theorem identifyTrends_filter (acts : List Activity) (today : ℤ) (cat : String)
    (hmem : cat ∈ trendCategories) :
    (identifyTrends acts today).filter (fun r => r.category == cat) =
      (trendFor acts today cat).toList := by
  have hperm := List.Perm.filter (fun r => r.category == cat)
    (sortLe_perm trendLe (trendCategories.filterMap (trendFor acts today)))
  rw [filterMap_trendFor_filter acts today trendCategories cat hmem (by decide)] at hperm
  refine perm_le_one hperm ?_
  cases trendFor acts today cat <;> simp

theorem categoryStep_err (u : UserData) (r : Rule)
    (hr : r.condition u = .error () ∨
      (r.condition u = .ok true ∧ r.calculateSavings u = .error ()))
    (acc : Option Insight) : categoryStep u acc r = acc := by
  cases acc with
  | some i => rfl
  | none =>
    rcases hr with h | ⟨h1, h2⟩
    · simp [categoryStep, h]
    · simp [categoryStep, h1, h2]

theorem categoryPass_err (u : UserData) (xs ys : List Rule) (r : Rule)
    (hr : r.condition u = .error () ∨
      (r.condition u = .ok true ∧ r.calculateSavings u = .error ())) :
    categoryPass (xs ++ r :: ys) u = categoryPass (xs ++ ys) u := by
  unfold categoryPass
  rw [List.foldl_append, List.foldl_append, List.foldl_cons, categoryStep_err u r hr]

/-! ## Claim theorems -/
/-- C4: for every feature vector, `generateInsights` produces at most one
insight per category; within a category that has logged data the produced
insight is exactly the first template in declared order whose condition
returns true and whose savings estimate is positive (later templates are
skipped), and a category whose has-data flag is false produces nothing. -/
theorem claim4_first_match_per_category (u : UserData) (c : String) :
    ((generateInsightsFromData u).filter (fun i => i.category == c)).length ≤ 1 ∧
    (u.hasAnyData = true →
      (generateInsightsFromData u).filter (fun i => i.category == c) =
        if categoryDataMap u c then
          (((templatesFor c).find? (fun t => selectedB t u)).map
            (fun t => mkInsightRec t (savingsOf t u))).toList
        else []) := by
  have hmain : u.hasAnyData = true →
      (generateInsightsFromData u).filter (fun i => i.category == c) =
        if categoryDataMap u c then
          (((templatesFor c).find? (fun t => selectedB t u)).map
            (fun t => mkInsightRec t (savingsOf t u))).toList
        else [] := by
    intro h
    rw [generateInsightsFromData_filter u c h]
    simp only [groupOut, categoryPass_eq_find]
  refine ⟨?_, hmain⟩
  by_cases h : u.hasAnyData = true
  · rw [hmain h]
    by_cases hd : categoryDataMap u c
    · simp only [hd, if_true]
      cases (templatesFor c).find? (fun t => selectedB t u) <;> simp
    · simp [hd]
  · have hfalse : u.hasAnyData = false := by
      cases hb : u.hasAnyData
      · rfl
      · exact absurd hb h
    simp only [generateInsightsFromData, generateInsightsWith, hfalse, Bool.false_eq_true,
      if_false]
    by_cases hc1 : "transport" = c
    · subst hc1; simp [gettingStarted]
    · by_cases hc2 : "electricity" = c
      · subst hc2; simp [gettingStarted]
      · by_cases hc3 : "diet" = c
        · subst hc3; simp [gettingStarted]
        · simp [gettingStarted, hc1, hc2, hc3]

/-- C4 witness: at the concrete car-heavy feature vector the transport
filter of the output is exactly the first-match selection. -/
theorem claim4_witness :
    carUser.hasAnyData = true ∧
    (generateInsightsFromData carUser).filter (fun i => i.category == "transport") =
      if categoryDataMap carUser "transport" then
        (((templatesFor "transport").find? (fun t => selectedB t carUser)).map
          (fun t => mkInsightRec t (savingsOf t carUser))).toList
      else [] :=
  ⟨rfl, (claim4_first_match_per_category carUser "transport").2 rfl⟩

/-- C8: a template whose condition (or whose savings estimator, after a
true condition) throws is skipped, and `generateInsights` returns exactly
the insights selected from the remaining templates — wherever the faulty
template sits in whichever category group. -/
theorem claim8_rule_fault_isolated (u : UserData) (gs1 gs2 : List (String × List Rule))
    (c : String) (xs ys : List Rule) (r : Rule)
    (hr : r.condition u = .error () ∨
      (r.condition u = .ok true ∧ r.calculateSavings u = .error ())) :
    generateInsightsWith (gs1 ++ (c, xs ++ r :: ys) :: gs2) u =
      generateInsightsWith (gs1 ++ (c, xs ++ ys) :: gs2) u := by
  have hpass := categoryPass_err u xs ys r hr
  simp only [generateInsightsWith, runGroups, List.map_append, List.map_cons, groupOut, hpass]

/-- C8 witness: inserting the concrete throwing template at the head of
the transport group leaves the output at the concrete car-heavy feature
vector unchanged. -/
theorem claim8_witness :
    throwingRule.condition carUser = .error () ∧
    generateInsightsWith
        ([] ++ ("transport", [] ++ throwingRule :: transportTemplates) ::
          [("electricity", electricityTemplates), ("diet", dietTemplates),
           ("waste", wasteTemplates)]) carUser =
      generateInsightsWith
        ([] ++ ("transport", [] ++ transportTemplates) ::
          [("electricity", electricityTemplates), ("diet", dietTemplates),
           ("waste", wasteTemplates)]) carUser :=
  ⟨rfl, claim8_rule_fault_isolated carUser []
    [("electricity", electricityTemplates), ("diet", dietTemplates), ("waste", wasteTemplates)]
    "transport" [] transportTemplates throwingRule (Or.inl rfl)⟩

/-- C9: the electricity template group is eligible whenever the feature
vector reports heating data, even with no electricity activities at all;
a heating-only user with more than 30 kg of heating emissions receives the
smart-thermostat recommendation with savings `heatingEmissions × 0.12`. -/
theorem claim9_heating_enables_electricity (u : UserData)
    (h1 : u.hasHeatingData = true) (h2 : u.hasElectricityData = false) :
    categoryDataMap u "electricity" = true ∧
    (u.hasAnyData = true → u.electricityEmissions ≤ 20 → u.electricityUsage ≤ 250 →
      30 < u.heatingEmissions →
      (generateInsightsFromData u).filter (fun i => i.category == "electricity") =
        [{ id := "smart-thermostat", title := "Get a Smart Thermostat",
           description := "Auto-adjust heating = 10-15% energy savings. Set it and forget it.",
           category := "electricity",
           potentialSavings := round1 (u.heatingEmissions * (12/100)), priority := 7 }]) := by
  have hmap : categoryDataMap u "electricity" = true := by
    simp [categoryDataMap, h1, h2]
  refine ⟨hmap, fun hAny hE hU hH => ?_⟩
  rw [generateInsightsFromData_filter u "electricity" hAny]
  have hne : ¬(20 < u.electricityEmissions) := not_lt.mpr hE
  have hnu1 : ¬(300 < u.electricityUsage) := not_lt.mpr (hU.trans (by norm_num))
  have hnu2 : ¬(250 < u.electricityUsage) := not_lt.mpr hU
  have hpos : (0 : ℚ) < u.heatingEmissions * (12/100) :=
    mul_pos ((by norm_num : (0:ℚ) < 30).trans hH) (by norm_num)
  simp only [groupOut, hmap, if_true, templatesFor, if_false, reduceIte]
  rw [categoryPass_eq_find]
  simp [electricityTemplates, List.find?, selectedB, hne, hnu1, hnu2, hH, hpos,
    mkInsightRec, savingsOf]

/-- C9 witness: the concrete heating-only feature vector receives exactly
the smart-thermostat recommendation. -/
theorem claim9_witness :
    heatingUser.hasHeatingData = true ∧ heatingUser.hasElectricityData = false ∧
    heatingUser.hasAnyData = true ∧ heatingUser.electricityEmissions ≤ 20 ∧
    heatingUser.electricityUsage ≤ 250 ∧ 30 < heatingUser.heatingEmissions ∧
    categoryDataMap heatingUser "electricity" = true ∧
    (generateInsightsFromData heatingUser).filter (fun i => i.category == "electricity") =
      [{ id := "smart-thermostat", title := "Get a Smart Thermostat",
         description := "Auto-adjust heating = 10-15% energy savings. Set it and forget it.",
         category := "electricity",
         potentialSavings := round1 (heatingUser.heatingEmissions * (12/100)),
         priority := 7 }] := by
  have h := claim9_heating_enables_electricity heatingUser rfl rfl
  refine ⟨rfl, rfl, rfl, by norm_num [heatingUser], by norm_num [heatingUser],
    by norm_num [heatingUser], h.1, h.2 rfl (by norm_num [heatingUser])
      (by norm_num [heatingUser]) (by norm_num [heatingUser])⟩

/-- C10: every insight produced on the non-empty path carries a
`potentialSavings` equal to the selected template's raw savings estimate
rounded to one decimal place, hence a value with at most one digit after
the decimal point (an integer multiple of 1/10). -/
theorem claim10_savings_one_decimal (u : UserData) (i : Insight)
    (hu : u.hasAnyData = true) (hi : i ∈ generateInsightsFromData u) :
    ∃ g ∈ templateGroups, ∃ t ∈ g.2, ∃ s : ℚ,
      t.calculateSavings u = .ok s ∧ 0 < s ∧ i.potentialSavings = round1 s ∧
      ∃ k : ℤ, i.potentialSavings = (k : ℚ) / 10 := by
  simp only [generateInsightsFromData, generateInsightsWith, hu, if_true] at hi
  have hi2 : i ∈ runGroups templateGroups u :=
    ((sortLe_perm insightLe (runGroups templateGroups u)).mem_iff).mp hi
  simp only [runGroups, List.mem_flatten, List.mem_map] at hi2
  obtain ⟨L, ⟨g, hg, hLg⟩, hiL⟩ := hi2
  rw [← hLg] at hiL
  refine ⟨g, hg, ?_⟩
  unfold groupOut at hiL
  by_cases hd : categoryDataMap u g.1
  · rw [if_pos hd] at hiL
    have hpass : categoryPass g.2 u = some i := by
      cases hp : categoryPass g.2 u with
      | none => rw [hp] at hiL; cases hiL
      | some j => rw [hp] at hiL; simp at hiL; rw [hiL]
    rw [categoryPass_eq_find] at hpass
    cases hf : (g.2).find? (fun t => selectedB t u) with
    | none => rw [hf] at hpass; cases hpass
    | some t =>
      rw [hf] at hpass
      have hit : mkInsightRec t (savingsOf t u) = i := by simpa using hpass
      have hsel : selectedB t u = true := by simpa using List.find?_some hf
      refine ⟨t, List.mem_of_find?_eq_some hf, ?_⟩
      unfold selectedB at hsel
      cases hc : t.condition u with
      | error e => rw [hc] at hsel; cases hsel
      | ok b =>
        rw [hc] at hsel
        cases b with
        | false => cases hsel
        | true =>
          cases hs : t.calculateSavings u with
          | error e => rw [hs] at hsel; cases hsel
          | ok s =>
            rw [hs] at hsel
            refine ⟨s, rfl, of_decide_eq_true hsel, ?_, ?_⟩
            · rw [← hit]
              simp [mkInsightRec, savingsOf, hs]
            · refine ⟨jsRound (s * 10), ?_⟩
              rw [← hit]
              simp [mkInsightRec, savingsOf, hs, round1]
  · rw [if_neg hd] at hiL
    cases hiL

/-- C10 witness: the concrete car-heavy feature vector produces the
public-transit insight, whose savings figure is the rounded estimate
4 = round1(10 × 0.4). -/
theorem claim10_witness :
    carUser.hasAnyData = true ∧
    transitInsight ∈ generateInsightsFromData carUser ∧
    (∃ g ∈ templateGroups, ∃ t ∈ g.2, ∃ s : ℚ,
      t.calculateSavings carUser = .ok s ∧ 0 < s ∧
      transitInsight.potentialSavings = round1 s ∧
      ∃ k : ℤ, transitInsight.potentialSavings = (k : ℚ) / 10) := by
  have hmem : transitInsight ∈ generateInsightsFromData carUser := by
    have hfilter := generateInsightsFromData_filter carUser "transport" rfl
    have hgroup : groupOut carUser ("transport", templatesFor "transport") =
        [transitInsight] := by
      rw [templatesFor]
      simp only [groupOut, categoryPass_eq_find, reduceIte]
      norm_num [categoryDataMap, carUser, transportTemplates, List.find?, selectedB,
        mkInsightRec, savingsOf, round1, jsRound, transitInsight]
    rw [hgroup] at hfilter
    exact List.mem_of_mem_filter (hfilter ▸ List.mem_singleton_self _)
  exact ⟨rfl, hmem, claim10_savings_one_decimal carUser _ rfl hmem⟩

/-- C7: a user with zero logged activities gets exactly the three fixed
getting-started insights (categories transport, electricity, diet, zero
savings, strictly descending priority) instead of rule evaluation, and
`generateAISummary` returns the fixed onboarding message with a null
`topCategory` and `insightCount` 0. -/
theorem claim7_onboarding (profile : Option Profile) (today : ℤ) :
    (analyzeUserData [] profile today).hasAnyData = false ∧
    generateInsights [] profile today = gettingStarted ∧
    gettingStarted.map (·.category) = ["transport", "electricity", "diet"] ∧
    gettingStarted.map (·.potentialSavings) = [0, 0, 0] ∧
    gettingStarted.map (·.priority) = [10, 9, 8] ∧
    List.Chain' (· > ·) (gettingStarted.map (·.priority)) ∧
    generateAISummary [] profile today =
      { summary := welcomeSummary, topCategory := none, potentialSavings := 0,
        insightCount := 0 } := by
  have h0 : (analyzeUserData [] profile today).hasAnyData = false := by
    simp [analyzeUserData]
  refine ⟨h0, ?_, by simp [gettingStarted], by simp [gettingStarted],
    by simp [gettingStarted], by simp [gettingStarted], ?_⟩
  · simp [generateInsights, generateInsightsFromData, generateInsightsWith, h0]
  · simp [generateAISummary, h0]

/-- C5: a category is reported by `identifyTrends` exactly when its
prior-week sum is positive and the rounded percent change has absolute
value at least 5; the reported record carries that rounded percent change
with tag positive when ≤ −10, negative when ≥ +10, and neutral otherwise;
a category with zero prior-week sum is omitted for every this-week value. -/
theorem claim5_trend_reporting (acts : List Activity) (today : ℤ) (cat : String)
    (hmem : cat ∈ trendCategories) :
    ((identifyTrends acts today).filter (fun r => r.category == cat) =
      if 0 < lastWeekSum acts today cat ∧
          5 ≤ |jsRound ((thisWeekSum acts today cat - lastWeekSum acts today cat)
            / lastWeekSum acts today cat * 100)| then
        [{ category := cat
           changePercent := jsRound ((thisWeekSum acts today cat - lastWeekSum acts today cat)
             / lastWeekSum acts today cat * 100)
           trend :=
             if jsRound ((thisWeekSum acts today cat - lastWeekSum acts today cat)
                 / lastWeekSum acts today cat * 100) ≤ -10 then "positive"
             else if 10 ≤ jsRound ((thisWeekSum acts today cat - lastWeekSum acts today cat)
                 / lastWeekSum acts today cat * 100) then "negative"
             else "neutral"
           thisWeek := thisWeekSum acts today cat
           lastWeek := lastWeekSum acts today cat }]
      else []) ∧
    ((∃ r ∈ identifyTrends acts today, r.category = cat) ↔
      (0 < lastWeekSum acts today cat ∧
        5 ≤ |jsRound ((thisWeekSum acts today cat - lastWeekSum acts today cat)
          / lastWeekSum acts today cat * 100)|)) ∧
    (lastWeekSum acts today cat = 0 →
      (identifyTrends acts today).filter (fun r => r.category == cat) = []) := by
  have hfil := identifyTrends_filter acts today cat hmem
  have hif := trendFor_eq_if acts today cat
  have hpart1 : (identifyTrends acts today).filter (fun r => r.category == cat) =
      if 0 < lastWeekSum acts today cat ∧
          5 ≤ |jsRound ((thisWeekSum acts today cat - lastWeekSum acts today cat)
            / lastWeekSum acts today cat * 100)| then
        [{ category := cat
           changePercent := jsRound ((thisWeekSum acts today cat - lastWeekSum acts today cat)
             / lastWeekSum acts today cat * 100)
           trend :=
             if jsRound ((thisWeekSum acts today cat - lastWeekSum acts today cat)
                 / lastWeekSum acts today cat * 100) ≤ -10 then "positive"
             else if 10 ≤ jsRound ((thisWeekSum acts today cat - lastWeekSum acts today cat)
                 / lastWeekSum acts today cat * 100) then "negative"
             else "neutral"
           thisWeek := thisWeekSum acts today cat
           lastWeek := lastWeekSum acts today cat }]
      else [] := by
    rw [hfil, hif]
    by_cases hcond : 0 < lastWeekSum acts today cat ∧
        5 ≤ |jsRound ((thisWeekSum acts today cat - lastWeekSum acts today cat)
          / lastWeekSum acts today cat * 100)|
    · rw [if_pos hcond, if_pos hcond, Option.toList_some]
    · rw [if_neg hcond, if_neg hcond, Option.toList_none]
  refine ⟨hpart1, ⟨?_, ?_⟩, ?_⟩
  · rintro ⟨r, hr, hrc⟩
    by_contra hcond
    have hrf : r ∈ (identifyTrends acts today).filter (fun r => r.category == cat) :=
      List.mem_filter.mpr ⟨hr, by simp [hrc]⟩
    rw [hpart1, if_neg hcond] at hrf
    cases hrf
  · intro hcond
    have : (identifyTrends acts today).filter (fun r => r.category == cat) ≠ [] := by
      rw [hpart1, if_pos hcond]
      simp
    obtain ⟨r, hrf⟩ := List.exists_mem_of_ne_nil _ this
    have hr := List.mem_filter.mp hrf
    exact ⟨r, hr.1, by simpa using hr.2⟩
  · intro hzero
    rw [hpart1, if_neg]
    rintro ⟨hpos, _⟩
    rw [hzero] at hpos
    exact lt_irrefl 0 hpos

/-- C5 witness: at the concrete history the transport record is reported
with rounded change −15 and tag positive. -/
theorem claim5_witness :
    "transport" ∈ trendCategories ∧
    (identifyTrends trendActs 0).filter (fun r => r.category == "transport") =
      [{ category := "transport", changePercent := -15, trend := "positive",
         thisWeek := 85, lastWeek := 100 }] := by
  have h := (claim5_trend_reporting trendActs 0 "transport" (by decide)).1
  refine ⟨by decide, ?_⟩
  rw [h]
  have hthis : thisWeekSum trendActs 0 "transport" = 85 := by
    simp [thisWeekSum, trendActs, sumEmissions]
  have hlast : lastWeekSum trendActs 0 "transport" = 100 := by
    simp [lastWeekSum, trendActs, sumEmissions]
  rw [hthis, hlast]
  norm_num [jsRound]

theorem cacheLookup_singleton (r : InsightRow) (now : ℚ) :
    cacheLookup [r] now =
      if !r.isDismissed && decide (now - 6 < r.createdAt) then some r else none := by
  unfold cacheLookup
  by_cases h : !r.isDismissed && decide (now - 6 < r.createdAt)
  · simp [h, sortLe, insertLe]
  · simp [h, sortLe]

/-- C6: with no forced refresh, a single cached row that is not dismissed,
younger than 6 hours, non-empty, and parses to an AI-sourced payload is
returned as a cache hit unchanged — for every value of the AI-path
arguments, so the AI adapter is never consulted; a corrupt row — one
whose stored description fails to parse, or one that parses to a payload
of the wrong shape (`source ≠ 'ai'`) — falls through to regeneration; and
a forced refresh bypasses the cache entirely for every cache content. -/
theorem claim6_cache_behavior :
    (∀ (rows : List InsightRow) (now : ℚ) (parseCache : String → Option CachedData)
        (oa : Bool) (jp : String → Option ParsedReply) (resp : String)
        (acts : List Activity) (profile : Option Profile) (today : ℤ),
      getInsights rows now parseCache oa jp resp acts profile today true =
        generatePath oa jp resp acts profile today) ∧
    (∀ (r : InsightRow) (now : ℚ) (parseCache : String → Option CachedData)
        (d : CachedData) (oa : Bool) (jp : String → Option ParsedReply) (resp : String)
        (acts : List Activity) (profile : Option Profile) (today : ℤ),
      r.isDismissed = false → now - 6 < r.createdAt → r.description ≠ "" →
      parseCache r.description = some d → d.source = "ai" →
      getInsights [r] now parseCache oa jp resp acts profile today false = .cacheHit d) ∧
    (∀ (r : InsightRow) (now : ℚ) (parseCache : String → Option CachedData)
        (oa : Bool) (jp : String → Option ParsedReply) (resp : String)
        (acts : List Activity) (profile : Option Profile) (today : ℤ),
      parseCache r.description = none →
      getInsights [r] now parseCache oa jp resp acts profile today false =
        generatePath oa jp resp acts profile today) ∧
    (∀ (r : InsightRow) (now : ℚ) (parseCache : String → Option CachedData)
        (d : CachedData) (oa : Bool) (jp : String → Option ParsedReply) (resp : String)
        (acts : List Activity) (profile : Option Profile) (today : ℤ),
      parseCache r.description = some d → d.source ≠ "ai" →
      getInsights [r] now parseCache oa jp resp acts profile today false =
        generatePath oa jp resp acts profile today) := by
  refine ⟨fun rows now pc oa jp resp acts profile today => rfl, ?_, ?_, ?_⟩
  · intro r now pc d oa jp resp acts profile today hdis hage hdesc hparse hsrc
    have hlook : cacheLookup [r] now = some r := by
      rw [cacheLookup_singleton]
      simp [hdis, hage]
    simp [getInsights, checkCache, hlook, hdesc, hparse, hsrc]
  · intro r now pc oa jp resp acts profile today hparse
    have hcc : checkCache [r] now pc = none := by
      unfold checkCache
      rw [cacheLookup_singleton]
      by_cases h : !r.isDismissed && decide (now - 6 < r.createdAt)
      · rw [if_pos h]
        by_cases hd : r.description ≠ ""
        · simp [hd, hparse]
        · simp [hd]
      · rw [if_neg h]
    simp [getInsights, hcc]
  · intro r now pc d oa jp resp acts profile today hparse hsrc
    have hcc : checkCache [r] now pc = none := by
      unfold checkCache
      rw [cacheLookup_singleton]
      by_cases h : !r.isDismissed && decide (now - 6 < r.createdAt)
      · rw [if_pos h]
        by_cases hd : r.description ≠ ""
        · simp [hd, hparse, hsrc]
        · simp [hd]
      · rw [if_neg h]
    simp [getInsights, hcc]

/-- C6 witness: at the concrete row aged 1 hour the call is a cache hit
with the parsed payload; the same row with a failing parse, and with a
parse yielding a wrong-shape (`source = "rules"`) payload, both fall back
to generation. -/
theorem claim6_witness :
    cachedRow.isDismissed = false ∧ (5 : ℚ) - 6 < cachedRow.createdAt ∧
    cachedRow.description ≠ "" ∧
    cacheParse cachedRow.description = some { source := "ai", body := "payload" } ∧
    ({ source := "ai", body := "payload" : CachedData }).source = "ai" ∧
    getInsights [cachedRow] 5 cacheParse false (fun _ => none) "" [] none 0 false =
      .cacheHit { source := "ai", body := "payload" } ∧
    getInsights [cachedRow] 5 (fun _ => none) false (fun _ => none) "" [] none 0 false =
      generatePath false (fun _ => none) "" [] none 0 ∧
    cacheParseRules cachedRow.description = some { source := "rules", body := "payload" } ∧
    ({ source := "rules", body := "payload" : CachedData }).source ≠ "ai" ∧
    getInsights [cachedRow] 5 cacheParseRules false (fun _ => none) "" [] none 0 false =
      generatePath false (fun _ => none) "" [] none 0 := by
  refine ⟨rfl, by norm_num [cachedRow], by simp [cachedRow], rfl, rfl, ?_, ?_, rfl,
    by simp, ?_⟩
  · exact claim6_cache_behavior.2.1 cachedRow 5 cacheParse
      { source := "ai", body := "payload" } false (fun _ => none) "" [] none 0 rfl
      (by norm_num [cachedRow]) (by simp [cachedRow]) rfl rfl
  · exact claim6_cache_behavior.2.2.1 cachedRow 5 (fun _ => none) false (fun _ => none) "" []
      none 0 rfl
  · exact claim6_cache_behavior.2.2.2 cachedRow 5 cacheParseRules
      { source := "rules", body := "payload" } false (fun _ => none) "" [] none 0 rfl
      (by simp)

/-- C2 counterexample: on a reply with no JSON object substring the
adapter does NOT report failure — `generateCarbonInsights` succeeds with
the raw unparsed reply wrapped as the summary, `generateAIInsights`
returns it as a normal AI-sourced (`source = "ai"`) payload, and
`getInsights` serves it instead of falling back to the rule-based path. -/
theorem claim2_counterexample :
    extractJsonSub noJsonReply = none ∧
    generateCarbonInsights (fun _ => none) noJsonReply = .ok (.rawWrapped noJsonReply) ∧
    generateAIInsights true (fun _ => none) noJsonReply =
      some { source := "ai", outcome := .rawWrapped noJsonReply } ∧
    generateAIInsights true (fun _ => none) noJsonReply ≠ none ∧
    getInsights [] 0 (fun _ => none) true (fun _ => none) noJsonReply [] none 0 true =
      .aiPayload { source := "ai", outcome := .rawWrapped noJsonReply } := by
  have hex : extractJsonSub noJsonReply = none := by decide
  refine ⟨hex, ?_, ?_, ?_, ?_⟩
  · simp [generateCarbonInsights, hex]
  · simp [generateAIInsights, generateCarbonInsights, hex]
  · simp [generateAIInsights, generateCarbonInsights, hex]
  · simp [getInsights, generatePath, generateAIInsights, generateCarbonInsights, hex]

/-- C2 as amended: when a JSON substring IS found but fails to parse,
`generateCarbonInsights` throws, `generateAIInsights` catches the throw
and reports failure (`none`), and the orchestrator's generation path
assembles the rule-based payload; a parseable substring is extracted,
deduplicated and returned as the AI payload.  (When no JSON substring is
found the adapter instead wraps the raw reply — see the counterexample.) -/
theorem claim2_amended_parse_failure (jp : String → Option ParsedReply) (resp m : String)
    (hm : extractJsonSub resp = some m) (hp : jp m = none) :
    generateCarbonInsights jp resp = .error () ∧
    generateAIInsights true jp resp = none ∧
    (∀ (acts : List Activity) (profile : Option Profile) (today : ℤ),
      generatePath true jp resp acts profile today =
        .rulesPayload (generateAISummary acts profile today).summary
          (((generateInsights acts profile today).head?.map (·.description)).getD "")
          ((generateInsights acts profile today).take 4)
          (identifyTrends acts today)
          (getEncouragement (identifyTrends acts today))) ∧
    (∀ (jp2 : String → Option ParsedReply) (p : ParsedReply), jp2 m = some p →
      generateAIInsights true jp2 resp =
        some { source := "ai",
               outcome := .parsed { p with insights := p.insights.map dedupByCategory } }) := by
  have h1 : generateCarbonInsights jp resp = .error () := by
    simp [generateCarbonInsights, hm, hp]
  have h2 : generateAIInsights true jp resp = none := by
    simp [generateAIInsights, h1]
  refine ⟨h1, h2, ?_, ?_⟩
  · intro acts profile today
    simp [generatePath, h2]
  · intro jp2 p hp2
    simp [generateAIInsights, generateCarbonInsights, hm, hp2]

/-- C2 witness: at the concrete prose-wrapped reply with a failing parse,
the adapter reports failure and the generation path is the rule-based
payload; with a succeeding parse the parsed object is returned. -/
theorem claim2_amended_witness :
    extractJsonSub proseReply = some proseJson ∧
    (fun (_ : String) => (none : Option ParsedReply)) proseJson = none ∧
    generateCarbonInsights (fun _ => none) proseReply = .error () ∧
    generateAIInsights true (fun _ => none) proseReply = none ∧
    generatePath true (fun _ => none) proseReply [] none 0 =
      .rulesPayload (generateAISummary [] none 0).summary
        (((generateInsights [] none 0).head?.map (·.description)).getD "")
        ((generateInsights [] none 0).take 4)
        (identifyTrends [] 0)
        (getEncouragement (identifyTrends [] 0)) ∧
    generateAIInsights true (fun _ => some { insights := none, rest := "parsed" }) proseReply =
      some { source := "ai",
             outcome := .parsed { insights := (none : Option (List AIInsight)).map dedupByCategory,
                                  rest := "parsed" } } := by
  have hm : extractJsonSub proseReply = some proseJson := by decide
  have h := claim2_amended_parse_failure (fun _ => none) proseReply proseJson hm rfl
  exact ⟨hm, rfl, h.1, h.2.1, h.2.2.1 [] none 0,
    h.2.2.2 (fun _ => some { insights := none, rest := "parsed" })
      { insights := none, rest := "parsed" } rfl⟩

/-- C3: the activity-creation path checks key existence and stores 0 for
the defined zero factors (bike, walk), but the activity-update path uses a
truthiness check and silently replaces the legitimate factor 0 with the
petrol-car default 0.21: updating a 10 km bike activity stores 2.1 kg, not
0. -/
theorem claim3_put_truthiness_bug :
    transportFactors.lookup "bike" = some 0 ∧
    transportFactors.lookup "walk" = some 0 ∧
    postTransportEmissions "bike" none 10 = 0 ∧
    postTransportEmissions "walk" none 10 = 0 ∧
    postEmissions "transport" "bike" none 10 = 0 ∧
    putTransportEmissions (some "bike") none 10 = 21/10 ∧
    putTransportEmissions (some "walk") none 10 = 21/10 ∧
    putEmissions "transport" (some "bike") none 10 = 21/10 ∧
    putTransportEmissions (some "bike") none 10 ≠ 0 := by
  have hb : transportFactors.lookup "bike" = some 0 := by
    simp [transportFactors, List.lookup]
  have hw : transportFactors.lookup "walk" = some 0 := by
    simp [transportFactors, List.lookup]
  have hbc : ("bike" : String) ≠ "car" := by decide
  have hwc : ("walk" : String) ≠ "car" := by decide
  refine ⟨hb, hw, ?_, ?_, ?_, ?_, ?_, ?_, ?_⟩
  · simp [postTransportEmissions, hb]
  · simp [postTransportEmissions, hw]
  · simp [postEmissions, postTransportEmissions, hb]
  · norm_num [putTransportEmissions, hb, hbc]
  · norm_num [putTransportEmissions, hw, hwc]
  · norm_num [putEmissions, putTransportEmissions, hb, hbc]
  · norm_num [putTransportEmissions, hb, hbc]

/-- C1 divergence: replacing the synonym category `energy` by its
canonical name `electricity` leaves the feature vector of
`analyzeUserData` and the merged breakdown of `getEnhancedStats`
unchanged, but changes the output of `identifyTrends`: the canonical
spelling reports a 50% electricity drop while the synonym spelling
reports nothing, because the trend queries match the raw category string
without normalization. -/
theorem claim1_energy_synonym_divergence :
    analyzeUserData energyActs none 0 = analyzeUserData electricityActs none 0 ∧
    enhancedBreakdown energyActs 0 = enhancedBreakdown electricityActs 0 ∧
    identifyTrends electricityActs 0 =
      [{ category := "electricity", changePercent := -50, trend := "positive",
         thisWeek := 50, lastWeek := 100 }] ∧
    identifyTrends energyActs 0 = [] ∧
    identifyTrends energyActs 0 ≠ identifyTrends electricityActs 0 := by
  have hnorm1 : normalizeCategory "energy" = "electricity" := by decide
  have hnorm2 : normalizeCategory "electricity" = "electricity" := by decide
  have ha : analyzeUserData energyActs none 0 = analyzeUserData electricityActs none 0 := by
    simp [analyzeUserData, energyActs, electricityActs, sumEmissions, sumValues,
      hnorm1, hnorm2, addToSet, profStrOrNull, profBoolOr]
  have hb : enhancedBreakdown energyActs 0 = enhancedBreakdown electricityActs 0 := by
    simp [enhancedBreakdown, rawBreakdown, energyActs, electricityActs, addToSet,
      sumEmissions, sortLe, insertLe, mergeRow, hnorm1, hnorm2]
  have hc : identifyTrends electricityActs 0 =
      [{ category := "electricity", changePercent := -50, trend := "positive",
         thisWeek := 50, lastWeek := 100 }] := by
    have l1 : lastWeekSum electricityActs 0 "transport" = 0 := by
      simp [lastWeekSum, electricityActs, sumEmissions]
    have l2 : lastWeekSum electricityActs 0 "electricity" = 100 := by
      simp [lastWeekSum, electricityActs, sumEmissions]
    have t2 : thisWeekSum electricityActs 0 "electricity" = 50 := by
      simp [thisWeekSum, electricityActs, sumEmissions]
    have l3 : lastWeekSum electricityActs 0 "heating" = 0 := by
      simp [lastWeekSum, electricityActs, sumEmissions]
    have l4 : lastWeekSum electricityActs 0 "diet" = 0 := by
      simp [lastWeekSum, electricityActs, sumEmissions]
    have l5 : lastWeekSum electricityActs 0 "waste" = 0 := by
      simp [lastWeekSum, electricityActs, sumEmissions]
    simp only [identifyTrends, trendCategories, List.filterMap_cons, List.filterMap_nil,
      trendFor_eq_if, l1, l2, t2, l3, l4, l5]
    norm_num [jsRound, sortLe, insertLe]
  have hd : identifyTrends energyActs 0 = [] := by
    have l1 : lastWeekSum energyActs 0 "transport" = 0 := by
      simp [lastWeekSum, energyActs, sumEmissions]
    have l2 : lastWeekSum energyActs 0 "electricity" = 0 := by
      simp [lastWeekSum, energyActs, sumEmissions]
    have l3 : lastWeekSum energyActs 0 "heating" = 0 := by
      simp [lastWeekSum, energyActs, sumEmissions]
    have l4 : lastWeekSum energyActs 0 "diet" = 0 := by
      simp [lastWeekSum, energyActs, sumEmissions]
    have l5 : lastWeekSum energyActs 0 "waste" = 0 := by
      simp [lastWeekSum, energyActs, sumEmissions]
    simp only [identifyTrends, trendCategories, List.filterMap_cons, List.filterMap_nil,
      trendFor_eq_if, l1, l2, l3, l4, l5]
    norm_num [sortLe]
  refine ⟨ha, hb, hc, hd, ?_⟩
  rw [hc, hd]
  simp
